import Mathlib

/-!
Verification of the Confluence page-scraping and role-resolution core of the
`automated_tests_app` repository (`src/Confluence.py`,
`src/automated_tests_cmd_app.py`).

The embedding follows the source. HTML documents are modelled as the node
trees that BeautifulSoup produces; a small lexer/builder models the
`html.parser` backend of the external `bs4` dependency on the well-nested
markup fragment the repository exercises (explicitly closed tags,
double-quoted attributes; entity references, comments inside text, implicit
closing of misnested tags and HTML void elements are outside the modelled
fragment). Network I/O (`requests.get`) is modelled by an oracle mapping
request URLs to responses, and every effectful function returns its result
paired with the trace of HTTP requests it issued, so that claims about
calls that are or are not made can be stated.
-/

deriving instance DecidableEq for Except

/-- Forest of sibling DOM nodes, as produced by BeautifulSoup: each node is
either a navigable string (`textCons`) or a tag element with a name, an
attribute dictionary and a child forest (`elemCons`). A forest is its own
inductive (rather than `List Node`) so that every traversal is structurally
recursive and computes definitionally. -/
inductive Forest where
  | nil : Forest
  | textCons (s : String) (rest : Forest) : Forest
  | elemCons (tag : String) (attrs : List (String × String)) (children : Forest) (rest : Forest) : Forest
deriving Repr, DecidableEq

/-- Attribute lookup on a BeautifulSoup tag: models `'k' in tag.attrs` /
`tag['k']`; `html.parser` keeps the first occurrence of a duplicated
attribute, which `List.lookup` mirrors. -/
def attrLookup (attrs : List (String × String)) (key : String) : Option String :=
  attrs.lookup key

/-- Models the BeautifulSoup `Tag.string` property of a tag whose child
forest is the argument: with exactly one child, a string child is returned
directly and a tag child yields its own `string`; any other number of
children gives `None`. -/
def Forest.tagString : Forest → Option String
  | .textCons s .nil => some s
  | .elemCons _ _ kids .nil => kids.tagString
  | _ => none

/-- Models `soup.find('th', string=kw)` combined with the caller's need for
`find_next_sibling`: walks the forest in document (pre-)order and returns
the forest of following siblings of the first `th` tag whose `Tag.string`
equals `kw`, or `none` when no such header exists. -/
def findThSiblings (kw : String) : Forest → Option Forest
  | .nil => none
  | .textCons _ rest => findThSiblings kw rest
  | .elemCons tag _ kids rest =>
    if tag = "th" ∧ kids.tagString = some kw then some rest
    else
      match findThSiblings kw kids with
      | some sibs => some sibs
      | none => findThSiblings kw rest

/-- Models `th.find_next_sibling('td')`: the first following sibling that is
a `td` tag, skipping strings and other tags; returns its attributes and
child forest. -/
def findNextSiblingTd : Forest → Option (List (String × String) × Forest)
  | .nil => none
  | .textCons _ rest => findNextSiblingTd rest
  | .elemCons tag attrs kids rest =>
    if tag = "td" then some (attrs, kids) else findNextSiblingTd rest

/-- Models `tag.find(name)`: the first descendant tag with the given name in
document (pre-)order, searching the given child forest; returns its
attributes and child forest. -/
def findTag (name : String) : Forest → Option (List (String × String) × Forest)
  | .nil => none
  | .textCons _ rest => findTag name rest
  | .elemCons tag attrs kids rest =>
    if tag = name then some (attrs, kids)
    else
      match findTag name kids with
      | some r => some r
      | none => findTag name rest

/-- Characters `html.parser` accepts inside tag and attribute names in the
modelled fragment. -/
def isNameChar (c : Char) : Bool :=
  c.isAlphanum || c == ':' || c == '-' || c == '_'

/-- ASCII whitespace separating attributes inside a tag. -/
def isSpaceChar (c : Char) : Bool :=
  c == ' ' || c == '\n' || c == '\t' || c == '\r'

/-- Models the lower-casing `html.parser` applies to tag and attribute
names. -/
def lowerStr (cs : List Char) : String :=
  String.mk (cs.map Char.toLower)

/-- Drops characters up to and including the next `>`. -/
def dropThroughGt : List Char → List Char
  | [] => []
  | '>' :: r => r
  | _ :: r => dropThroughGt r

/-- Lexer token: a start tag (possibly self-closing, as `html.parser`
reports XHTML-style `<t/>` via `handle_startendtag`), an end tag, or a run
of character data. -/
inductive Tok where
  | tagOpen (name : String) (attrs : List (String × String)) (selfClosing : Bool)
  | tagClose (name : String)
  | txt (s : String)
deriving Repr, DecidableEq

/-- Lexes the attribute region of a start tag, up to the closing `>` or
`/>`: returns the attribute list, the self-closing flag and the remaining
input. Attribute names are lower-cased; a name without `=value` gets the
empty value, as the `bs4` tree builder does. The fuel argument exceeds the
input length, and each step consumes at least one character. -/
def lexAttrs : Nat → List Char → List (String × String) × Bool × List Char
  | 0, cs => ([], false, cs)
  | _+1, [] => ([], false, [])
  | fuel+1, c :: cs =>
    if isSpaceChar c then lexAttrs fuel cs
    else if c == '>' then ([], false, cs)
    else if c == '/' then
      match cs with
      | '>' :: r => ([], true, r)
      | _ => lexAttrs fuel cs
    else if isNameChar c then
      let nm := (c :: cs).takeWhile isNameChar
      let r1 := (c :: cs).dropWhile isNameChar
      match r1 with
      | '=' :: '"' :: r2 =>
        let v := r2.takeWhile (fun d => !(d == '"'))
        let r3 := match r2.dropWhile (fun d => !(d == '"')) with
          | _ :: t => t
          | [] => []
        let (as, sc, r4) := lexAttrs fuel r3
        ((lowerStr nm, String.mk v) :: as, sc, r4)
      | '=' :: r2 =>
        let v := r2.takeWhile (fun d => !(isSpaceChar d || d == '>' || d == '/'))
        let r3 := r2.dropWhile (fun d => !(isSpaceChar d || d == '>' || d == '/'))
        let (as, sc, r4) := lexAttrs fuel r3
        ((lowerStr nm, String.mk v) :: as, sc, r4)
      | _ =>
        let (as, sc, r2) := lexAttrs fuel r1
        ((lowerStr nm, "") :: as, sc, r2)
    else lexAttrs fuel cs

/-- Lexes markup into tokens, modelling Python's `html.parser` tokenizer on
the modelled fragment: `<name ...>` and `<name .../>` start tags, `</name>`
end tags, `<!...>` markup declarations (skipped), and character data. Tag
names are lower-cased; a `<` not followed by a name is character data. The
fuel argument exceeds the input length, and each step consumes at least one
character. -/
def lexHtml : Nat → List Char → List Tok
  | 0, _ => []
  | _+1, [] => []
  | fuel+1, '<' :: r =>
    match r with
    | '/' :: r2 =>
      let nm := r2.takeWhile isNameChar
      let r3 := dropThroughGt (r2.dropWhile isNameChar)
      .tagClose (lowerStr nm) :: lexHtml fuel r3
    | '!' :: r2 => lexHtml fuel (dropThroughGt r2)
    | _ =>
      let nm := r.takeWhile isNameChar
      if nm.isEmpty then
        let t := r.takeWhile (fun d => !(d == '<'))
        .txt (String.mk ('<' :: t)) :: lexHtml fuel (r.dropWhile (fun d => !(d == '<')))
      else
        let r2 := r.dropWhile isNameChar
        let (attrs, sc, r3) := lexAttrs (r2.length + 1) r2
        .tagOpen (lowerStr nm) attrs sc :: lexHtml fuel r3
  | fuel+1, c :: cs =>
    let t := cs.takeWhile (fun d => !(d == '<'))
    .txt (String.mk (c :: t)) :: lexHtml fuel (cs.dropWhile (fun d => !(d == '<')))

/-- Builds the sibling forest from a token stream, modelling the `bs4` tree
builder on the modelled fragment: a self-closing start tag becomes an empty
element; a start tag opens an element closed by the matching end tag; an
end tag matching an enclosing open element implicitly closes the current
one (the unconsumed token propagates outwards); an end tag matching no open
element is dropped; elements still open at end of input are closed. `anc`
is the stack of names of the enclosing open elements. Returns the forest
and the unconsumed tokens. The fuel argument exceeds twice the token count,
and each recursive call either consumes a token or terminates. -/
def buildForest : Nat → List Tok → List String → Forest × List Tok
  | 0, toks, _ => (.nil, toks)
  | _+1, [], _ => (.nil, [])
  | fuel+1, tok :: rest, anc =>
    match tok with
    | .txt s =>
      let (f, r) := buildForest fuel rest anc
      (.textCons s f, r)
    | .tagOpen name attrs true =>
      let (f, r) := buildForest fuel rest anc
      (.elemCons name attrs .nil f, r)
    | .tagOpen name attrs false =>
      let (kids, r1) := buildForest fuel rest (name :: anc)
      match r1 with
      | .tagClose m :: r2 =>
        if m = name then
          let (f, r3) := buildForest fuel r2 anc
          (.elemCons name attrs kids f, r3)
        else (.elemCons name attrs kids .nil, r1)
      | _ => (.elemCons name attrs kids .nil, r1)
    | .tagClose name =>
      if anc.contains name then (.nil, tok :: rest)
      else buildForest fuel rest anc

/-- Models `BeautifulSoup(html_string, 'html.parser')` on the modelled
fragment: lex the markup and build the document forest. -/
def parseHtml (s : String) : Forest :=
  let toks := lexHtml (s.length + 1) s.data
  (buildForest (2 * toks.length + 2) toks []).1

example :
    parseHtml "<table><tr><th>Developer:</th><td><ri:user ri:userkey=\"U1\"/></td></tr></table>" =
      .elemCons "table" [] (.elemCons "tr" []
        (.elemCons "th" [] (.textCons "Developer:" .nil)
          (.elemCons "td" [] (.elemCons "ri:user" [("ri:userkey", "U1")] .nil .nil) .nil))
        .nil) .nil := by decide

/-- Oracle modelling the external `requests` dependency: the response each
endpoint would give to a GET on a URL. `pageGet` covers the page-body
endpoint: `.ok` is `response.text` of a successful response, `.error` is a
`requests.RequestException` — a connection error or timeout, or the
`HTTPError` that `raise_for_status` raises for an error HTTP status.
`userGet` covers the user-lookup endpoint: `.ok` is `response.json()` as a
string-valued JSON object, `.error` a `requests.RequestException`. -/
structure Network where
  pageGet : String → Except String String
  userGet : String → Except String (List (String × String))

/-- One HTTP request issued during a run, by endpoint. -/
inductive Call where
  | pageReq (url : String)
  | userReq (url : String)
deriving Repr, DecidableEq

namespace MyConfluenceAPI

/-- Embeds `MyConfluenceAPI.get_page_body` (src/Confluence.py:78-92): raise
`ValueError` when the base URL or API key is empty, otherwise GET
`{confluence_page}/{sub_page_name}` with Bearer auth; return the body on
success and raise `ValueError` carrying the cause on any
`requests.RequestException` (including non-2xx via `raise_for_status`).
Paired with the trace of requests issued. -/
def get_page_body (confluence_page confluence_api_key sub_page_name : String)
    (net : Network) : Except String String × List Call :=
  if confluence_page = "" ∨ confluence_api_key = "" then
    (.error "Confluence URL or API key not configured.", [])
  else
    let url := confluence_page ++ "/" ++ sub_page_name
    match net.pageGet url with
    | .ok body => (.ok body, [.pageReq url])
    | .error e => (.error ("Failed to fetch Confluence page: " ++ e), [.pageReq url])

/-- State of a constructed `MyConfluenceAPI` object (src/Confluence.py:56-76):
the page identifier, the credentials and the body fetched on construction. -/
structure ApiState where
  sub_page_name : String
  confluence_api_key : String
  confluence_page : String
  body : Option String
deriving Repr, DecidableEq

/-- Embeds `MyConfluenceAPI.__init__` (src/Confluence.py:56-76): the body is
fetched immediately on construction; a fetch error propagates and no object
is constructed. -/
def init (confluence_api_key confluence_page sub_page_name : String)
    (net : Network) : Except String ApiState × List Call :=
  match get_page_body confluence_page confluence_api_key sub_page_name net with
  | (.ok b, t) => (.ok ⟨sub_page_name, confluence_api_key, confluence_page, some b⟩, t)
  | (.error e, t) => (.error e, t)

/-- Embeds the static `MyConfluenceAPI.get_person_responsible`
(src/Confluence.py:183-235): `None` or empty input gives `None`
(`if not html_string`); otherwise parse, find the matching `th` (else
`None`), its next `td` sibling (else `None`), the `ri:user` descendant, and
return its `ri:userkey` attribute when present (else `None`). The
`except (AttributeError, KeyError)` handler that would re-raise
`ValueError` is unreachable: every attribute access in the body is guarded,
so no error path remains. -/
def get_person_responsible (html_string : Option String) (person_type : String) :
    Except String (Option String) :=
  match html_string with
  | none => .ok none
  | some s =>
    if s = "" then .ok none
    else
      match findThSiblings person_type (parseHtml s) with
      | none => .ok none
      | some sibs =>
        match findNextSiblingTd sibs with
        | none => .ok none
        | some (_, tdKids) =>
          match findTag "ri:user" tdKids with
          | none => .ok none
          | some (userAttrs, _) =>
            match attrLookup userAttrs "ri:userkey" with
            | some k => .ok (some k)
            | none => .ok none

/-- Embeds `MyConfluenceAPI.get_username_by_user_key`
(src/Confluence.py:139-181): raise `ValueError` when the configuration is
missing, otherwise GET `{confluence_page}/rest/api/latest/user?key={user_key}`;
on success return the JSON `username` field, defaulting to
`"Username not found"`; on `requests.RequestException` raise `ValueError`
carrying the key and cause. Paired with the trace of requests issued. -/
def get_username_by_user_key (confluence_page confluence_api_key : String)
    (net : Network) (user_key : String) : Except String String × List Call :=
  if confluence_page = "" ∨ confluence_api_key = "" then
    (.error "Confluence configuration missing.", [])
  else
    let url := confluence_page ++ "/rest/api/latest/user?key=" ++ user_key
    match net.userGet url with
    | .ok json => (.ok ((attrLookup json "username").getD "Username not found"), [.userReq url])
    | .error e =>
      (.error ("Failed to get username for key " ++ user_key ++ ": " ++ e), [.userReq url])

/-- Embeds `MyConfluenceAPI.get_person_responsible_by_keywords`
(src/Confluence.py:94-117): try each keyword in order against `self.body`;
the first truthy user key (non-`None` and non-empty, Python truthiness of
`if person_api_key:`) is resolved via `get_username_by_user_key` and
returned; if no keyword yields one, return `None`. Paired with the trace of
requests issued. -/
def get_person_responsible_by_keywords (confluence_page confluence_api_key : String)
    (body : Option String) (net : Network) (list_key_words : List String) :
    Except String (Option String) × List Call :=
  match list_key_words with
  | [] => (.ok none, [])
  | key_word :: rest =>
    match get_person_responsible body key_word with
    | .error e => (.error e, [])
    | .ok none =>
      get_person_responsible_by_keywords confluence_page confluence_api_key body net rest
    | .ok (some k) =>
      if k = "" then
        get_person_responsible_by_keywords confluence_page confluence_api_key body net rest
      else
        match get_username_by_user_key confluence_page confluence_api_key net k with
        | (.ok u, t) => (.ok (some u), t)
        | (.error e, t) => (.error e, t)

end MyConfluenceAPI

namespace ConfluencePage

/-- Embeds the static `ConfluencePage.get_person_responsible`
(src/automated_tests_cmd_app.py:192-202): `None` or empty input gives `""`;
otherwise parse and return
`td_element.find('ri:user')['ri:userkey'] if td_element else ""`, where the
`except Exception` handler turns the `TypeError` of subscripting a missing
`ri:user` (`None['ri:userkey']`) and the `KeyError` of a missing
`ri:userkey` attribute into `""` as well. -/
def get_person_responsible (html_string : Option String) (person_type : String) : String :=
  match html_string with
  | none => ""
  | some s =>
    if s = "" then ""
    else
      match findThSiblings person_type (parseHtml s) with
      | none => ""
      | some sibs =>
        match findNextSiblingTd sibs with
        | none => ""
        | some (_, tdKids) =>
          match findTag "ri:user" tdKids with
          | none => ""
          | some (userAttrs, _) => (attrLookup userAttrs "ri:userkey").getD ""

/-- Embeds the static `ConfluencePage.get_username_by_user_key`
(src/automated_tests_cmd_app.py:181-190): GET
`{CONFLUENCE_PAGE}/rest/api/latest/user?key={user_key}` and return the JSON
`username` field, defaulting to `"Username not found"`; no status check,
and an uncaught `requests` exception propagates. Paired with the trace of
requests issued. -/
def get_username_by_user_key (confluence_page : String) (net : Network)
    (user_key : String) : Except String String × List Call :=
  let url := confluence_page ++ "/rest/api/latest/user?key=" ++ user_key
  match net.userGet url with
  | .ok json => (.ok ((attrLookup json "username").getD "Username not found"), [.userReq url])
  | .error e => (.error e, [.userReq url])

/-- Embeds `ConfluencePage.get_person_responsible_by_keywords`
(src/automated_tests_cmd_app.py:165-171): try each keyword in order; the
first truthy key (non-empty string) is resolved via
`get_username_by_user_key`; after the loop `person_api_key` holds the last
(falsy) result, so the final line returns `None`. Paired with the trace of
requests issued. -/
def get_person_responsible_by_keywords (confluence_page : String)
    (body : Option String) (net : Network) (list_key_words : List String) :
    Except String (Option String) × List Call :=
  match list_key_words with
  | [] => (.ok none, [])
  | key_word :: rest =>
    let person_api_key := get_person_responsible body key_word
    if person_api_key = "" then
      get_person_responsible_by_keywords confluence_page body net rest
    else
      match get_username_by_user_key confluence_page net person_api_key with
      | (.ok u, t) => (.ok (some u), t)
      | (.error e, t) => (.error e, t)

end ConfluencePage

/-- The markup of the specification's concrete example (spec §8 and the
docstring example of src/Confluence.py:202). -/
def sampleMarkup : String :=
  "<table><tr><th>Developer:</th><td><ri:user ri:userkey=\"U1\"/></td></tr></table>"

/-- Markup whose `Developer:` header has no following sibling `td` cell. -/
def headerOnlyMarkup : String :=
  "<table><tr><th>Developer:</th></tr></table>"

example : MyConfluenceAPI.get_person_responsible (some sampleMarkup) "Developer:" =
    .ok (some "U1") := rfl

example : ConfluencePage.get_person_responsible (some sampleMarkup) "Developer:" = "U1" := by
  decide

example : MyConfluenceAPI.get_person_responsible (some headerOnlyMarkup) "Developer:" =
    .ok none := rfl

/-- Does a recorded call hit the user-lookup endpoint (rather than the
page-body endpoint)? -/
def Call.isUserReq : Call → Bool
  | .userReq _ => true
  | .pageReq _ => false

/-- Network oracle on which every request fails, for concrete witnesses. -/
def downNet : Network :=
  ⟨fun _ => .error "connection refused", fun _ => .error "connection refused"⟩

/-- Network oracle answering every user lookup with a fixed JSON object, for
concrete witnesses. -/
def jsonNet (json : List (String × String)) : Network :=
  ⟨fun _ => .error "connection refused", fun _ => .ok json⟩

/-- C9: a `None` or empty markup argument makes `get_person_responsible`
return the no-key result without raising, in both revisions, and hence
role resolution over an absent page body returns the not-found sentinel for
every keyword list, issuing no request. -/
theorem spec_C9_absent_body_not_found (kw page key : String) (net : Network)
    (kws : List String) :
    MyConfluenceAPI.get_person_responsible none kw = .ok none ∧
    MyConfluenceAPI.get_person_responsible (some "") kw = .ok none ∧
    ConfluencePage.get_person_responsible none kw = "" ∧
    ConfluencePage.get_person_responsible (some "") kw = "" ∧
    MyConfluenceAPI.get_person_responsible_by_keywords page key none net kws =
      (.ok none, []) ∧
    MyConfluenceAPI.get_person_responsible_by_keywords page key (some "") net kws =
      (.ok none, []) := by
  refine ⟨rfl, rfl, rfl, rfl, ?_, ?_⟩ <;>
    induction kws with
    | nil => rfl
    | cons w rest ih =>
      simpa [MyConfluenceAPI.get_person_responsible_by_keywords,
        MyConfluenceAPI.get_person_responsible] using ih

/-- C10: the two revisions of the key-extraction function agree on
successful extractions — whenever `MyConfluenceAPI.get_person_responsible`
returns a key, `ConfluencePage.get_person_responsible` returns the same
key — and a miss in the newer revision is reported as `""` by the older
one. -/
theorem spec_C10_revisions_agree (html : Option String) (kw k : String) :
    (MyConfluenceAPI.get_person_responsible html kw = .ok (some k) →
      ConfluencePage.get_person_responsible html kw = k) ∧
    (MyConfluenceAPI.get_person_responsible html kw = .ok none →
      ConfluencePage.get_person_responsible html kw = "") := by
  unfold MyConfluenceAPI.get_person_responsible ConfluencePage.get_person_responsible
  rcases html with _ | s
  · exact ⟨fun h => (nomatch h), fun _ => rfl⟩
  · by_cases hs : s = ""
    · subst hs
      exact ⟨fun h => (nomatch h), fun _ => rfl⟩
    · simp only [if_neg hs]
      rcases hth : findThSiblings kw (parseHtml s) with _ | sibs <;>
        simp only [hth]
      · exact ⟨fun h => (nomatch h), fun _ => trivial⟩
      · rcases htd : findNextSiblingTd sibs with _ | ⟨tdAttrs, tdKids⟩ <;>
          simp only [htd]
        · exact ⟨fun h => (nomatch h), fun _ => trivial⟩
        · rcases hu : findTag "ri:user" tdKids with _ | ⟨userAttrs, userKids⟩ <;>
            simp only [hu]
          · exact ⟨fun h => (nomatch h), fun _ => trivial⟩
          · rcases ha : attrLookup userAttrs "ri:userkey" with _ | k0 <;>
              simp only [ha]
            · exact ⟨fun h => (nomatch h), fun _ => rfl⟩
            · refine ⟨fun h => ?_, fun h => nomatch h⟩
              cases h
              simp [Option.getD]

/-- C10 witness: the two revisions agree on the specification's concrete
example, and on a markup without the keyword. -/
theorem spec_C10_revisions_agree_witness :
    ConfluencePage.get_person_responsible (some sampleMarkup) "Developer:" = "U1" ∧
    ConfluencePage.get_person_responsible (some "<p>x</p>") "Developer:" = "" :=
  ⟨(spec_C10_revisions_agree (some sampleMarkup) "Developer:" "U1").1 rfl,
   (spec_C10_revisions_agree (some "<p>x</p>") "Developer:" "U1").2 rfl⟩

/-- C1: when no keyword extracts a user key from the markup, role
resolution returns the not-found sentinel (`None`) and issues no HTTP
request at all (empty trace); `get_username_by_user_key` is never invoked —
an invocation would either record a `userReq` in the trace or turn the
result into its configuration error. Both revisions are covered. -/
theorem spec_C1_no_match_no_lookup (page key : String) (body : Option String)
    (net : Network) (kws : List String)
    (hnew : ∀ kw ∈ kws, MyConfluenceAPI.get_person_responsible body kw = .ok none)
    (hold : ∀ kw ∈ kws, ConfluencePage.get_person_responsible body kw = "") :
    MyConfluenceAPI.get_person_responsible_by_keywords page key body net kws =
      (.ok none, []) ∧
    ConfluencePage.get_person_responsible_by_keywords page body net kws =
      (.ok none, []) := by
  induction kws with
  | nil => exact ⟨rfl, rfl⟩
  | cons w rest ih =>
    have h1 := hnew w (List.mem_cons_self w rest)
    have h2 := hold w (List.mem_cons_self w rest)
    have ih2 := ih (fun kw hk => hnew kw (List.mem_cons_of_mem w hk))
      (fun kw hk => hold kw (List.mem_cons_of_mem w hk))
    constructor
    · simpa [MyConfluenceAPI.get_person_responsible_by_keywords, h1] using ih2.1
    · simpa [ConfluencePage.get_person_responsible_by_keywords, h2] using ih2.2

/-- C1 witness: a paragraph markup with no table headers, searched for the
developer keywords, yields the not-found sentinel and an empty request
trace in both revisions. -/
theorem spec_C1_no_match_no_lookup_witness :
    MyConfluenceAPI.get_person_responsible_by_keywords "P" "K" (some "<p>x</p>") downNet
      ["Developer:", "Main Developer:"] = (.ok none, []) ∧
    ConfluencePage.get_person_responsible_by_keywords "P" (some "<p>x</p>") downNet
      ["Developer:", "Main Developer:"] = (.ok none, []) :=
  spec_C1_no_match_no_lookup "P" "K" (some "<p>x</p>") downNet
    ["Developer:", "Main Developer:"] (by decide) (by decide)

/-- C2: role resolution short-circuits — when the head keyword yields a
(truthy) user key, the later keywords never influence the outcome — and in
general the keywords are tried in caller-supplied order, each keyword that
yields no usable key being skipped, so the first keyword yielding a key
decides the result; there is no scoring. -/
theorem spec_C2_first_match_wins (page key : String) (body : Option String)
    (net : Network) (kw k : String) (rest pre suf : List String)
    (hk : MyConfluenceAPI.get_person_responsible body kw = .ok (some k))
    (hkne : k ≠ "")
    (hpre : ∀ w ∈ pre, MyConfluenceAPI.get_person_responsible body w = .ok none ∨
      MyConfluenceAPI.get_person_responsible body w = .ok (some "")) :
    MyConfluenceAPI.get_person_responsible_by_keywords page key body net (kw :: rest) =
      MyConfluenceAPI.get_person_responsible_by_keywords page key body net [kw] ∧
    MyConfluenceAPI.get_person_responsible_by_keywords page key body net (pre ++ suf) =
      MyConfluenceAPI.get_person_responsible_by_keywords page key body net suf := by
  constructor
  · simp [MyConfluenceAPI.get_person_responsible_by_keywords, hk, hkne]
  · induction pre with
    | nil => rfl
    | cons w pre ih =>
      have ih2 := ih (fun w2 hw => hpre w2 (List.mem_cons_of_mem w hw))
      rcases hpre w (List.mem_cons_self w pre) with h | h <;>
        simpa [MyConfluenceAPI.get_person_responsible_by_keywords, h] using ih2

/-- C2 witness: on the example markup, with a non-matching keyword before
and a stray keyword after, the result is decided by `Developer:` alone. -/
theorem spec_C2_first_match_wins_witness :
    MyConfluenceAPI.get_person_responsible (some sampleMarkup) "Developer:" =
      .ok (some "U1") ∧
    MyConfluenceAPI.get_person_responsible_by_keywords "P" "K" (some sampleMarkup)
        (jsonNet [("username", "jane")]) ["Developer:", "Main Developer:"] =
      MyConfluenceAPI.get_person_responsible_by_keywords "P" "K" (some sampleMarkup)
        (jsonNet [("username", "jane")]) ["Developer:"] ∧
    MyConfluenceAPI.get_person_responsible_by_keywords "P" "K" (some sampleMarkup)
        (jsonNet [("username", "jane")]) ["Analyst:", "Developer:"] =
      MyConfluenceAPI.get_person_responsible_by_keywords "P" "K" (some sampleMarkup)
        (jsonNet [("username", "jane")]) ["Developer:"] :=
  ⟨rfl,
   (spec_C2_first_match_wins "P" "K" (some sampleMarkup) (jsonNet [("username", "jane")])
      "Developer:" "U1" ["Main Developer:"] ["Analyst:"] ["Developer:"] rfl (by decide)
      (by decide)).1,
   (spec_C2_first_match_wins "P" "K" (some sampleMarkup) (jsonNet [("username", "jane")])
      "Developer:" "U1" ["Main Developer:"] ["Analyst:"] ["Developer:"] rfl (by decide)
      (by decide)).2⟩

/-- C3 counterexample: on markup whose `Developer:` header cell has no
following sibling data cell, `get_person_responsible` returns
`Except.ok none` — no error naming the keyword is raised — and role
resolution returns the not-found sentinel with an empty request trace,
exactly as it does when the keyword is absent from the markup, so the
outcome is not distinct from "not found". -/
theorem spec_C3_counterexample :
    MyConfluenceAPI.get_person_responsible (some headerOnlyMarkup) "Developer:" =
      .ok none ∧
    MyConfluenceAPI.get_person_responsible_by_keywords "P" "K" (some headerOnlyMarkup)
      downNet ["Developer:"] = (.ok none, []) ∧
    MyConfluenceAPI.get_person_responsible (some "<p>x</p>") "Developer:" = .ok none :=
  ⟨rfl, rfl, rfl⟩

/-- C3 (amended): for markup containing a header cell that matches the
keyword but has no following sibling data cell, `get_person_responsible`
returns the same not-found result (`None`) as when the keyword is absent;
the guarded body makes the `except (AttributeError, KeyError)` /
`ValueError` path unreachable, so no ParseFailure distinct from "not
found" is produced. -/
theorem spec_C3_header_without_td_not_found (s kw : String) (sibs : Forest)
    (hs : s ≠ "")
    (hth : findThSiblings kw (parseHtml s) = some sibs)
    (htd : findNextSiblingTd sibs = none) :
    MyConfluenceAPI.get_person_responsible (some s) kw = .ok none := by
  unfold MyConfluenceAPI.get_person_responsible
  simp only [if_neg hs, hth, htd]

/-- C3 witness: the header-without-cell markup satisfies the amended
hypotheses and yields the not-found result. -/
theorem spec_C3_header_without_td_not_found_witness :
    headerOnlyMarkup ≠ "" ∧
    findThSiblings "Developer:" (parseHtml headerOnlyMarkup) = some .nil ∧
    findNextSiblingTd .nil = none ∧
    MyConfluenceAPI.get_person_responsible (some headerOnlyMarkup) "Developer:" =
      .ok none :=
  ⟨by decide, by decide, rfl,
   spec_C3_header_without_td_not_found headerOnlyMarkup "Developer:" .nil
     (by decide) (by decide) rfl⟩

/-- C4: on the specification's example markup with keyword list
`["Developer:"]`, extraction matches the header cell whose text equals the
keyword, reads the `ri:userkey` attribute of the `ri:user` element in the
immediately following sibling data cell — yielding key `"U1"` — and role
resolution issues exactly one user-lookup request, with key `U1`, whatever
the endpoint answers. -/
theorem spec_C4_example_extraction (net : Network) :
    MyConfluenceAPI.get_person_responsible (some sampleMarkup) "Developer:" =
      .ok (some "U1") ∧
    (MyConfluenceAPI.get_person_responsible_by_keywords "https://confluence.example.com"
        "token" (some sampleMarkup) net ["Developer:"]).2 =
      [.userReq "https://confluence.example.com/rest/api/latest/user?key=U1"] := by
  refine ⟨rfl, ?_⟩
  show (match MyConfluenceAPI.get_username_by_user_key "https://confluence.example.com"
      "token" net "U1" with
    | (.ok u, t) => ((Except.ok (some u) : Except String (Option String)), t)
    | (.error e, t) => (.error e, t)).2 = _
  unfold MyConfluenceAPI.get_username_by_user_key
  rw [if_neg (by decide : ¬("https://confluence.example.com" = "" ∨ "token" = ""))]
  rcases h : net.userGet "https://confluence.example.com/rest/api/latest/user?key=U1"
    with e | j <;> simp [h]

/-- C5: when the user-lookup endpoint answers with a JSON object, the
result of `get_username_by_user_key` is the value of its `username` field,
or the literal string `"Username not found"` when that field is absent. -/
theorem spec_C5_username_field (page key uk : String) (net : Network)
    (json : List (String × String))
    (hpage : page ≠ "") (hkey : key ≠ "")
    (hnet : net.userGet (page ++ "/rest/api/latest/user?key=" ++ uk) = .ok json) :
    (attrLookup json "username" = none →
      (MyConfluenceAPI.get_username_by_user_key page key net uk).1 =
        .ok "Username not found") ∧
    ∀ v, attrLookup json "username" = some v →
      (MyConfluenceAPI.get_username_by_user_key page key net uk).1 = .ok v := by
  unfold MyConfluenceAPI.get_username_by_user_key
  rw [if_neg (not_or.mpr ⟨hpage, hkey⟩)]
  constructor
  · intro h
    simp [hnet, h]
  · intro v h
    simp [hnet, h]

/-- C5 witness: a JSON object without `username` gives the literal default,
and one with the field gives its value. -/
theorem spec_C5_username_field_witness :
    (MyConfluenceAPI.get_username_by_user_key "P" "K" (jsonNet []) "u1").1 =
      .ok "Username not found" ∧
    (MyConfluenceAPI.get_username_by_user_key "P" "K"
        (jsonNet [("username", "jane")]) "u1").1 = .ok "jane" :=
  ⟨(spec_C5_username_field "P" "K" "u1" (jsonNet []) [] (by decide) (by decide) rfl).1 rfl,
   (spec_C5_username_field "P" "K" "u1" (jsonNet [("username", "jane")])
      [("username", "jane")] (by decide) (by decide) rfl).2 "jane" rfl⟩

/-- C6: when the page fetch fails (network error, or a non-2xx status which
`raise_for_status` turns into the same exception), `get_page_body` fails
with a `ValueError` whose message carries the underlying cause, issues
exactly that one request (no retry), and the constructor propagates the
error so that no object — and hence no role resolution over markup from
that fetch — ever exists. -/
theorem spec_C6_fetch_failure (page key sub e : String) (net : Network)
    (hpage : page ≠ "") (hkey : key ≠ "")
    (hnet : net.pageGet (page ++ "/" ++ sub) = .error e) :
    MyConfluenceAPI.get_page_body page key sub net =
      (.error ("Failed to fetch Confluence page: " ++ e),
        [.pageReq (page ++ "/" ++ sub)]) ∧
    MyConfluenceAPI.init key page sub net =
      (.error ("Failed to fetch Confluence page: " ++ e),
        [.pageReq (page ++ "/" ++ sub)]) := by
  have h1 : MyConfluenceAPI.get_page_body page key sub net =
      (.error ("Failed to fetch Confluence page: " ++ e),
        [.pageReq (page ++ "/" ++ sub)]) := by
    unfold MyConfluenceAPI.get_page_body
    rw [if_neg (not_or.mpr ⟨hpage, hkey⟩)]
    simp [hnet]
  refine ⟨h1, ?_⟩
  unfold MyConfluenceAPI.init
  rw [h1]

/-- C6 witness: with every request failing, fetching page `app_1` from base
`P` yields the error carrying the cause and a single-request trace. -/
theorem spec_C6_fetch_failure_witness :
    MyConfluenceAPI.get_page_body "P" "K" "app_1" downNet =
      (.error ("Failed to fetch Confluence page: " ++ "connection refused"),
        [.pageReq ("P" ++ "/" ++ "app_1")]) ∧
    MyConfluenceAPI.init "K" "P" "app_1" downNet =
      (.error ("Failed to fetch Confluence page: " ++ "connection refused"),
        [.pageReq ("P" ++ "/" ++ "app_1")]) :=
  spec_C6_fetch_failure "P" "K" "app_1" "connection refused" downNet
    (by decide) (by decide) rfl

/-- C7: with an empty base URL or an empty API key, both the page fetch and
the user-key lookup fail with their configuration-missing `ValueError` and
an empty request trace — the failure happens before any network request is
issued. -/
theorem spec_C7_config_missing_fails_fast (page key sub uk : String) (net : Network)
    (h : page = "" ∨ key = "") :
    MyConfluenceAPI.get_page_body page key sub net =
      (.error "Confluence URL or API key not configured.", []) ∧
    MyConfluenceAPI.get_username_by_user_key page key net uk =
      (.error "Confluence configuration missing.", []) := by
  unfold MyConfluenceAPI.get_page_body MyConfluenceAPI.get_username_by_user_key
  rw [if_pos h, if_pos h]
  exact ⟨rfl, rfl⟩

/-- C7 witness: an empty base URL fails fast on both operations with no
request issued, even though the network would answer. -/
theorem spec_C7_config_missing_fails_fast_witness :
    MyConfluenceAPI.get_page_body "" "K" "app_1" (jsonNet [("username", "jane")]) =
      (.error "Confluence URL or API key not configured.", []) ∧
    MyConfluenceAPI.get_username_by_user_key "" "K" (jsonNet [("username", "jane")]) "u1" =
      (.error "Confluence configuration missing.", []) :=
  spec_C7_config_missing_fails_fast "" "K" "app_1" "u1"
    (jsonNet [("username", "jane")]) (Or.inl rfl)

/-- Helper for C8: `get_username_by_user_key` consults only the user-lookup
endpoint, and every request it records is a user lookup. -/
theorem username_lookup_only_userGet (page key uk : String)
    (u : String → Except String (List (String × String)))
    (g g2 : String → Except String String) :
    MyConfluenceAPI.get_username_by_user_key page key ⟨g, u⟩ uk =
      MyConfluenceAPI.get_username_by_user_key page key ⟨g2, u⟩ uk ∧
    ((MyConfluenceAPI.get_username_by_user_key page key ⟨g, u⟩ uk).2.all
      Call.isUserReq) = true := by
  unfold MyConfluenceAPI.get_username_by_user_key
  by_cases h : page = "" ∨ key = ""
  · rw [if_pos h]
    exact ⟨rfl, rfl⟩
  · rw [if_neg h]
    rcases hu : u (page ++ "/rest/api/latest/user?key=" ++ uk) with e | j <;>
      simp [hu, Call.isUserReq]

/-- C8: role resolution is deterministic and mutation-free over its inputs:
its outcome is a function of the stored markup, the keyword list and the
user-lookup responses alone — two runs with identical markup, keywords and
lookup responses give identical results even if the page endpoint behaves
differently, so the stored page markup is never re-fetched — and every
request in its trace is a user lookup, never a page fetch. -/
theorem spec_C8_deterministic_no_refetch (page key : String) (body : Option String)
    (kws : List String) (u : String → Except String (List (String × String)))
    (g g2 : String → Except String String) :
    MyConfluenceAPI.get_person_responsible_by_keywords page key body ⟨g, u⟩ kws =
      MyConfluenceAPI.get_person_responsible_by_keywords page key body ⟨g2, u⟩ kws ∧
    ((MyConfluenceAPI.get_person_responsible_by_keywords page key body ⟨g, u⟩ kws).2.all
      Call.isUserReq) = true := by
  induction kws with
  | nil => exact ⟨rfl, rfl⟩
  | cons w rest ih =>
    rcases hg : MyConfluenceAPI.get_person_responsible body w with e | k0
    · constructor <;> simp [MyConfluenceAPI.get_person_responsible_by_keywords, hg]
    · rcases k0 with _ | k
      · refine ⟨?_, ?_⟩
        · simpa [MyConfluenceAPI.get_person_responsible_by_keywords, hg] using ih.1
        · simpa [MyConfluenceAPI.get_person_responsible_by_keywords, hg] using ih.2
      · by_cases hk : k = ""
        · subst hk
          refine ⟨?_, ?_⟩
          · simpa [MyConfluenceAPI.get_person_responsible_by_keywords, hg] using ih.1
          · simpa [MyConfluenceAPI.get_person_responsible_by_keywords, hg] using ih.2
        · have hu := username_lookup_only_userGet page key k u g g2
          constructor
          · simp only [MyConfluenceAPI.get_person_responsible_by_keywords, hg, if_neg hk,
              hu.1]
          · simp only [MyConfluenceAPI.get_person_responsible_by_keywords, hg, if_neg hk]
            rcases hres : MyConfluenceAPI.get_username_by_user_key page key ⟨g, u⟩ k
              with ⟨r, t⟩
            have := hu.2
            rw [hres] at this
            rcases r with e | v <;> simpa using this
